import Mathlib

/-!
# Verification of the File_converter conversion core

A shallow embedding of the repository's conversion-orchestration and
handler-dispatch subsystem:

* `src/core/orchestrator.py` — `convert_file` and the module-local dummy
  classes that shadow the imported `get_handler` / `ConversionError`;
* `src/core/exceptions.py` — the real error taxonomy;
* `src/plugins/handler_factory.py` — `_discover_handlers` / `get_handler`;
* `src/plugins/csv_handler.py` and `src/plugins/json_handler.py` — the two
  data handlers the claims name.

Python values are modelled by the inductive `PyVal` (None, bool, int, str,
list, dict with string keys); Python floats and non-string dict keys do not
occur in any claim and are outside the model.  Exceptions become the
inductive `PyExc`; `try`/`except` becomes `Except`.  The filesystem is an
association list from paths to format-level file contents: a CSV file is the
row/field structure the `csv` module guarantees to round-trip (quoting is
the stdlib's concern and is below this model), a JSON file is the JSON value
the text denotes (`json.dump`/`json.load` translate between text and that
value).
-/

set_option maxRecDepth 4000

namespace FileConverter

/-- A Python value, as the handlers move them around: `None`, booleans,
integers, strings, lists and string-keyed dicts (an association list in
insertion order).  Floats and non-string dict keys never arise in the code
paths under verification and are outside the model. -/
inductive PyVal where
  | none : PyVal
  | bool (b : Bool) : PyVal
  | int (n : Int) : PyVal
  | str (s : String) : PyVal
  | list (xs : List PyVal) : PyVal
  | dict (kvs : List (String × PyVal)) : PyVal
  deriving Repr

mutual

/-- Structural equality test for `PyVal` (Python `==` on these values,
restricted to same-type comparisons, which is all the embedded code does). -/
def PyVal.beq : PyVal → PyVal → Bool
  | .none, .none => true
  | .bool a, .bool b => a == b
  | .int a, .int b => a == b
  | .str a, .str b => a == b
  | .list xs, .list ys => PyVal.beqList xs ys
  | .dict xs, .dict ys => PyVal.beqPairs xs ys
  | _, _ => false

/-- `PyVal.beq` pointwise on lists. -/
def PyVal.beqList : List PyVal → List PyVal → Bool
  | [], [] => true
  | x :: xs, y :: ys => PyVal.beq x y && PyVal.beqList xs ys
  | _, _ => false

/-- `PyVal.beq` pointwise on key-value pair lists. -/
def PyVal.beqPairs : List (String × PyVal) → List (String × PyVal) → Bool
  | [], [] => true
  | (k1, v1) :: xs, (k2, v2) :: ys => k1 == k2 && PyVal.beq v1 v2 && PyVal.beqPairs xs ys
  | _, _ => false

end

/-- Induction over `PyVal` that hands the list and dict cases their
elementwise induction hypotheses. -/
theorem PyVal.inductionOn {P : PyVal → Prop}
    (hnone : P .none) (hbool : ∀ b, P (.bool b)) (hint : ∀ n, P (.int n))
    (hstr : ∀ s, P (.str s))
    (hlist : ∀ xs, (∀ x ∈ xs, P x) → P (.list xs))
    (hdict : ∀ kvs, (∀ kv ∈ kvs, P kv.2) → P (.dict kvs)) :
    ∀ v, P v
  | .none => hnone
  | .bool b => hbool b
  | .int n => hint n
  | .str s => hstr s
  | .list xs => hlist xs (fun x hx =>
      have h1 := List.sizeOf_lt_of_mem hx
      PyVal.inductionOn hnone hbool hint hstr hlist hdict x)
  | .dict kvs => hdict kvs (fun kv hkv =>
      have h1 := List.sizeOf_lt_of_mem hkv
      PyVal.inductionOn hnone hbool hint hstr hlist hdict kv.2)
decreasing_by
  · simp only [PyVal.list.sizeOf_spec]
    omega
  · have h2 : sizeOf kv.2 < sizeOf kv := by
      obtain ⟨a, b⟩ := kv
      simp only [Prod.mk.sizeOf_spec]
      omega
    simp only [PyVal.dict.sizeOf_spec]
    omega

/-- `PyVal.beqList` decides list equality, given that `PyVal.beq` decides
equality of the elements. -/
theorem PyVal.beqList_iff (xs : List PyVal)
    (ih : ∀ x ∈ xs, ∀ b, PyVal.beq x b = true ↔ x = b) :
    ∀ ys, PyVal.beqList xs ys = true ↔ xs = ys := by
  induction xs with
  | nil => intro ys; cases ys <;> simp [PyVal.beqList]
  | cons x xs ihx =>
    intro ys
    cases ys with
    | nil => simp [PyVal.beqList]
    | cons y ys =>
      simp [PyVal.beqList, Bool.and_eq_true, ih x (by simp),
        ihx (fun a ha b => ih a (by simp [ha]) b)]

/-- `PyVal.beqPairs` decides equality of key-value pair lists. -/
theorem PyVal.beqPairs_iff (xs : List (String × PyVal))
    (ih : ∀ kv ∈ xs, ∀ b, PyVal.beq kv.2 b = true ↔ kv.2 = b) :
    ∀ ys, PyVal.beqPairs xs ys = true ↔ xs = ys := by
  induction xs with
  | nil => intro ys; cases ys <;> simp [PyVal.beqPairs]
  | cons x xs ihx =>
    intro ys
    cases ys with
    | nil => obtain ⟨k, v⟩ := x; simp [PyVal.beqPairs]
    | cons y ys =>
      obtain ⟨k, v⟩ := x
      obtain ⟨k2, v2⟩ := y
      simp [PyVal.beqPairs, Bool.and_eq_true, ih ⟨k, v⟩ (by simp),
        ihx (fun a ha b => ih a (by simp [ha]) b), and_assoc]

/-- `PyVal.beq` decides equality. -/
theorem PyVal.beq_iff : ∀ a b : PyVal, PyVal.beq a b = true ↔ a = b := by
  intro a
  induction a using PyVal.inductionOn with
  | hnone => intro b; cases b <;> simp [PyVal.beq]
  | hbool x => intro b; cases b <;> simp [PyVal.beq]
  | hint x => intro b; cases b <;> simp [PyVal.beq]
  | hstr x => intro b; cases b <;> simp [PyVal.beq]
  | hlist xs ih =>
    intro b
    cases b <;> simp [PyVal.beq]
    exact PyVal.beqList_iff xs ih _
  | hdict kvs ih =>
    intro b
    cases b <;> simp [PyVal.beq]
    exact PyVal.beqPairs_iff kvs ih _

instance : DecidableEq PyVal := fun a b =>
  decidable_of_iff (PyVal.beq a b = true) (PyVal.beq_iff a b)

/-- The exceptions the embedded code can raise.  The `dummy…` constructors
are the module-local classes `orchestrator.py` defines at lines 13-16
(`class UnsupportedFormatError(Exception): pass` etc.), which shadow
the imports from `core.exceptions`; the others are the real classes of
`src/core/exceptions.py` plus the built-ins the code can raise. -/
inductive PyExc where
  /-- built-in `ValueError` with its message. -/
  | valueError (msg : String) : PyExc
  /-- built-in `TypeError` with its message. -/
  | typeError (msg : String) : PyExc
  /-- `core.exceptions.FileProcessingError(file_path, message)`. -/
  | fileProcessingError (path msg : String) : PyExc
  /-- `core.exceptions.UnsupportedFormatError(format, message)`. -/
  | unsupportedFormatError (format msg : String) : PyExc
  /-- `core.exceptions.ConversionError(from_format, to_format, message)`. -/
  | conversionError (fromFormat toFormat msg : String) : PyExc
  /-- the orchestrator's local `class ConversionError(Exception): pass`,
  constructed with positional arguments (a plain `Exception` keeps them as
  its `args` tuple). -/
  | dummyConversionError (args : List String) : PyExc
  /-- the orchestrator's local `class UnsupportedFormatError(Exception): pass`. -/
  | dummyUnsupportedFormatError (msg : String) : PyExc
  /-- built-in `AttributeError` with its message. -/
  | attributeError (msg : String) : PyExc
  deriving Repr, DecidableEq

instance {ε α : Type} [DecidableEq ε] [DecidableEq α] : DecidableEq (Except ε α)
  | Except.error a, Except.error b =>
    if h : a = b then isTrue (by rw [h]) else isFalse (fun q => by cases q; exact h rfl)
  | Except.ok a, Except.ok b =>
    if h : a = b then isTrue (by rw [h]) else isFalse (fun q => by cases q; exact h rfl)
  | Except.error _, Except.ok _ => isFalse (fun q => by cases q)
  | Except.ok _, Except.error _ => isFalse (fun q => by cases q)

/-! ## Small pieces of Python string semantics -/

/-- `s.lstrip('.')`: drop every leading `'.'`. -/
def pyLstripDot (s : String) : String :=
  ⟨s.data.dropWhile (fun c => c = '.')⟩

/-- `s.lower()` for the ASCII identifiers and extensions this code handles. -/
def pyLower (s : String) : String :=
  ⟨s.data.map Char.toLower⟩

/-- Index of the last occurrence of `c` in `cs`, or `none`. -/
def lastIdx (c : Char) (cs : List Char) : Option Nat :=
  (List.range cs.length).foldl
    (fun acc i => if cs.get? i = some c then some i else acc) Option.none

/-- `os.path.splitext` (posixpath): split at the last `'.'` that lies after
the last `'/'` and has at least one non-dot character between them, so that
leading dots of the basename (hidden files) never start an extension. -/
def pySplitext (p : String) : String × String :=
  let cs := p.data
  let sepIdx : Int := (lastIdx '/' cs).elim (-1) Int.ofNat
  match lastIdx '.' cs with
  | Option.none => (p, "")
  | Option.some d =>
    if sepIdx < Int.ofNat d ∧
        ((List.range d).any
          (fun i => sepIdx < Int.ofNat i ∧ cs.get? i ≠ some '.')) then
      (⟨cs.take d⟩, ⟨cs.drop d⟩)
    else
      (p, "")

/-- Format derivation in `convert_file` (orchestrator.py lines 49-52):
`os.path.splitext(path)[1].lstrip('.').lower()`. -/
def deriveFormat (p : String) : String :=
  pyLower (pyLstripDot (pySplitext p).2)

/-! ## Python dicts as insertion-ordered association lists -/

/-- `d[k]` lookup (`dict.get`): the value at the first (and, for a real
Python dict, only) binding of `k`. -/
def dictGet {α : Type} : List (String × α) → String → Option α
  | [], _ => Option.none
  | e :: d, k => if e.1 = k then Option.some e.2 else dictGet d k

/-- `d[k] = v` assignment: overwrite the binding in place when `k` is
present, append it otherwise — Python dicts keep insertion order. -/
def dictSet {α : Type} : List (String × α) → String → α → List (String × α)
  | [], k, v => [(k, v)]
  | e :: d, k, v => if e.1 = k then (k, v) :: d else e :: dictSet d k v

end FileConverter

namespace FileConverter

/-! ## JSON documents

`json.dump` and `json.load` translate between text and a JSON value; the
text itself (indentation, escapes) carries no information beyond the value,
so a JSON file is modelled as the `JsonVal` its text denotes.  `jsonDump`
and `jsonLoad` are the value translations the two functions perform; every
`PyVal` constructor is JSON-serializable (floats and non-string keys, on
which `json.dump` behaves differently, are outside the model). -/

/-- A JSON document value. -/
inductive JsonVal where
  | null : JsonVal
  | bool (b : Bool) : JsonVal
  | int (n : Int) : JsonVal
  | str (s : String) : JsonVal
  | arr (xs : List JsonVal) : JsonVal
  | obj (kvs : List (String × JsonVal)) : JsonVal
  deriving Repr

mutual

/-- The value mapping of `json.dump`: `None ↦ null`, `bool ↦ bool`,
`int ↦ number`, `str ↦ string`, `list ↦ array`, `dict ↦ object`. -/
def jsonDump : PyVal → JsonVal
  | PyVal.none => JsonVal.null
  | PyVal.bool b => JsonVal.bool b
  | PyVal.int n => JsonVal.int n
  | PyVal.str s => JsonVal.str s
  | PyVal.list xs => JsonVal.arr (jsonDumpList xs)
  | PyVal.dict kvs => JsonVal.obj (jsonDumpPairs kvs)

/-- `jsonDump` elementwise. -/
def jsonDumpList : List PyVal → List JsonVal
  | [] => []
  | x :: xs => jsonDump x :: jsonDumpList xs

/-- `jsonDump` on object members. -/
def jsonDumpPairs : List (String × PyVal) → List (String × JsonVal)
  | [] => []
  | (k, v) :: kvs => (k, jsonDump v) :: jsonDumpPairs kvs

end

mutual

/-- The value mapping of `json.load`: arrays become lists, objects become
string-keyed dicts, scalars map back to the matching Python scalars. -/
def jsonLoad : JsonVal → PyVal
  | JsonVal.null => PyVal.none
  | JsonVal.bool b => PyVal.bool b
  | JsonVal.int n => PyVal.int n
  | JsonVal.str s => PyVal.str s
  | JsonVal.arr xs => PyVal.list (jsonLoadList xs)
  | JsonVal.obj kvs => PyVal.dict (jsonLoadPairs kvs)

/-- `jsonLoad` elementwise. -/
def jsonLoadList : List JsonVal → List PyVal
  | [] => []
  | x :: xs => jsonLoad x :: jsonLoadList xs

/-- `jsonLoad` on object members. -/
def jsonLoadPairs : List (String × JsonVal) → List (String × PyVal)
  | [] => []
  | (k, v) :: kvs => (k, jsonLoad v) :: jsonLoadPairs kvs

end

/-! ## The filesystem

An association list from paths to format-level file contents.  A CSV file
is its row/field structure — the `csv` module's quoting layer round-trips
arbitrary string fields and sits below this model.  Cross-format reads
(opening a CSV file with the JSON handler) go through concrete text the
model does not carry; no claim involves them. -/

/-- What a written file holds, at the level above text encoding. -/
inductive FileContent where
  | csvFile (rows : List (List String)) : FileContent
  | jsonFile (v : JsonVal) : FileContent
  deriving Repr

/-- The filesystem: path to content, insertion-ordered. -/
abbrev FS : Type := List (String × FileContent)

end FileConverter

namespace FileConverter

/-! ## The CSV handler (`src/plugins/csv_handler.py`)

`CsvHandler.read` is `list(csv.DictReader(file))`; `CsvHandler.write`
validates non-emptiness, takes the first record's keys as the header, and
streams the records through `csv.DictWriter`.  The stdlib behaviours the
embedding carries: `DictReader` pairs each row positionally with the header,
fills missing trailing fields with `None` (`restval`) and skips blank rows;
`DictWriter` renders `None` as the empty field and other non-strings with
`str()`, and raises `ValueError` when a record holds a key outside the
header (`extrasaction='raise'`).  Fields a row holds beyond the header land
under a Python `None` key, which string-keyed records cannot carry; rows
written by `DictWriter` always have exactly the header's length, and no
claim reaches that corner, so such fields are dropped here. -/

/-- Python `str(…)` quote character, built without a literal apostrophe. -/
def pyQuote : String := ⟨[Char.ofNat 39]⟩

/-- The runtime type name of a value, as `AttributeError` messages spell it. -/
def pyTypeName : PyVal → String
  | PyVal.none => "NoneType"
  | PyVal.bool _ => "bool"
  | PyVal.int _ => "int"
  | PyVal.str _ => "str"
  | PyVal.list _ => "list"
  | PyVal.dict _ => "dict"

mutual

/-- Python `repr`.  Strings are always wrapped in single quotes; the escape
rules `repr` applies inside them (for quotes, backslashes, control
characters) are elided — no claim renders such a string through `repr`. -/
def pyRepr : PyVal → String
  | PyVal.none => "None"
  | PyVal.bool b => if b then "True" else "False"
  | PyVal.int n => toString n
  | PyVal.str s => pyQuote ++ s ++ pyQuote
  | PyVal.list xs => "[" ++ String.intercalate ", " (pyReprList xs) ++ "]"
  | PyVal.dict kvs => "\x7b" ++ String.intercalate ", " (pyReprPairs kvs) ++ "\x7d"

/-- `pyRepr` elementwise. -/
def pyReprList : List PyVal → List String
  | [] => []
  | x :: xs => pyRepr x :: pyReprList xs

/-- `pyRepr` on dict members. -/
def pyReprPairs : List (String × PyVal) → List String
  | [] => []
  | (k, v) :: kvs => (pyQuote ++ k ++ pyQuote ++ ": " ++ pyRepr v) :: pyReprPairs kvs

end

/-- Python `str(…)`: identity on strings, `repr` on containers. -/
def pyStr : PyVal → String
  | PyVal.str s => s
  | v => pyRepr v

/-- How the `csv` writer renders one cell: `None` becomes the empty field,
anything else goes through `str()`. -/
def csvField : PyVal → String
  | PyVal.none => ""
  | v => pyStr v

/-- `DictWriter._dict_to_list` on one record: reject keys outside
`fieldnames` with the `ValueError` message (`extrasaction='raise'`), else
emit `rowdict.get(f, None)` rendered per field, in `fieldnames` order.
A non-dict record raises `AttributeError` at `rowdict.keys()`.  The
`Except.error` payload is the exception's `str()`. -/
def dictWriterRow (fieldnames : List String) (r : PyVal) : Except String (List String) :=
  match r with
  | PyVal.dict kvs =>
    let wrong := (kvs.map Prod.fst).filter (fun k => ¬ fieldnames.contains k)
    if wrong.isEmpty then
      Except.ok (fieldnames.map (fun f => csvField ((dictGet kvs f).getD PyVal.none)))
    else
      Except.error ("dict contains fields not in fieldnames: " ++
        String.intercalate ", " (wrong.map (fun k => pyQuote ++ k ++ pyQuote)))
  | v =>
      Except.error (pyQuote ++ pyTypeName v ++ pyQuote ++
        " object has no attribute " ++ pyQuote ++ "keys" ++ pyQuote)

/-- `writer.writerows(data)`: convert and write records in order until one
fails; the successfully converted rows before the failure are flushed to the
file when the `with` block closes it.  Returns the flushed rows and the
failure's message, when one occurred. -/
def writeRowsAux (fieldnames : List String) : List PyVal → List (List String) × Option String
  | [] => ([], Option.none)
  | r :: rest =>
    match dictWriterRow fieldnames r with
    | Except.error m => ([], Option.some m)
    | Except.ok row =>
      let tail := writeRowsAux fieldnames rest
      (row :: tail.1, tail.2)

/-- `CsvHandler.write(file_path, data)` (csv_handler.py lines 55-82).
Empty data raises `ValueError` before the file is opened; the header is the
first record's key list (computed before the `try`, so a non-dict first
record raises a raw `AttributeError` and creates no file); inside the
`try`, `writeheader()` and `writerows(data)` run, and any exception is
re-raised as `FileProcessingError(file_path, …)` with the partial file left
behind. -/
def csvHandlerWrite (fs : FS) (path : String) (data : List PyVal) : FS × Except PyExc Unit :=
  match data with
  | [] => (fs, Except.error (PyExc.valueError "Input data for CSV writing cannot be empty."))
  | first :: _ =>
    match first with
    | PyVal.dict kvs0 =>
      let headers := kvs0.map Prod.fst
      let result := writeRowsAux headers data
      let content := FileContent.csvFile (headers :: result.1)
      match result.2 with
      | Option.none => (dictSet fs path content, Except.ok ())
      | Option.some m =>
          (dictSet fs path content,
            Except.error (PyExc.fileProcessingError path
              ("An unexpected error occurred during CSV writing: " ++ m)))
    | v =>
        (fs, Except.error (PyExc.attributeError
          (pyQuote ++ pyTypeName v ++ pyQuote ++ " object has no attribute " ++
            pyQuote ++ "keys" ++ pyQuote)))

/-- Header fields paired positionally with a row's fields; header fields
past the row's end get `restval` (`None`). -/
def zipRestval : List String → List String → List (String × PyVal)
  | [], _ => []
  | h :: hs, [] => (h, PyVal.none) :: zipRestval hs []
  | h :: hs, r :: rs => (h, PyVal.str r) :: zipRestval hs rs

/-- One `DictReader` row: the dict pairing the header with the row. -/
def dictReaderRow (header row : List String) : PyVal :=
  PyVal.dict (zipRestval header row)

/-- `CsvHandler.read(file_path)` (csv_handler.py lines 31-53):
`list(csv.DictReader(file))`.  A missing file raises
`FileProcessingError(path, "CSV file not found")`; an empty file has no
header row and yields `[]`; otherwise the first row is the header and each
later non-blank row becomes a record (`DictReader` skips blank rows). -/
def csvHandlerRead (fs : FS) (path : String) : Except PyExc (List PyVal) :=
  match dictGet fs path with
  | Option.none => Except.error (PyExc.fileProcessingError path "CSV file not found")
  | Option.some (FileContent.csvFile rows) =>
    match rows with
    | [] => Except.ok []
    | header :: body =>
        Except.ok ((body.filter (fun r => ¬ r.isEmpty)).map (dictReaderRow header))
  | Option.some (FileContent.jsonFile _) =>
      Except.error (PyExc.fileProcessingError path
        "An error occurred while reading the CSV: non-CSV content")

/-- Whether a value is a Python string. -/
def isStr : PyVal → Bool
  | PyVal.str _ => true
  | _ => false

/-- The key list of a dict record, `none` for non-dicts. -/
def recKeys : PyVal → Option (List String)
  | PyVal.dict kvs => Option.some (kvs.map Prod.fst)
  | _ => Option.none

/-- Whether a record is a dict whose values are all strings. -/
def allStrVals : PyVal → Bool
  | PyVal.dict kvs => kvs.all (fun kv => isStr kv.2)
  | _ => false

/-- The row a dict record renders to, field per key in record order. -/
def rowOf : PyVal → List String
  | PyVal.dict kvs => kvs.map (fun kv => csvField kv.2)
  | _ => []

/-- Whether a record is a dict holding a key outside `headers`. -/
def hasExtraKey (headers : List String) : PyVal → Bool
  | PyVal.dict kvs =>
      decide (((kvs.map Prod.fst).filter (fun k => ¬ headers.contains k)) ≠ [])
  | _ => false

/-! ## The JSON handler (`src/plugins/json_handler.py`) -/

/-- `JsonHandler.read(file_path)` (json_handler.py lines 39-67): load the
document, require the root to be a list (the `TypeError` raised otherwise is
caught and re-raised as `FileProcessingError` carrying the `TypeError`'s
text), return it unchanged.  A missing file raises
`FileProcessingError(path, "JSON file not found")`; content that is not
JSON raises `FileProcessingError(path, "Invalid JSON format")`. -/
def jsonHandlerRead (fs : FS) (path : String) : Except PyExc (List PyVal) :=
  match dictGet fs path with
  | Option.none => Except.error (PyExc.fileProcessingError path "JSON file not found")
  | Option.some (FileContent.jsonFile v) =>
    match jsonLoad v with
    | PyVal.list xs => Except.ok xs
    | _ => Except.error (PyExc.fileProcessingError path
        "JSON content has wrong structure: JSON content must be a list of objects.")
  | Option.some (FileContent.csvFile _) =>
      Except.error (PyExc.fileProcessingError path "Invalid JSON format")

/-- `JsonHandler.write(file_path, data)` (json_handler.py lines 69-87):
`json.dump(data, file, indent=4)` with no validation — in particular no
empty-input check — so it always creates or overwrites the destination and
returns normally (every value in the model's universe is serializable). -/
def jsonHandlerWrite (fs : FS) (path : String) (data : List PyVal) : FS × Except PyExc Unit :=
  (dictSet fs path (FileContent.jsonFile (jsonDump (PyVal.list data))), Except.ok ())

end FileConverter

namespace FileConverter

/-! ## The handler factory (`src/plugins/handler_factory.py`)

`_discover_handlers` scans the plugin package once: for each module (in
`pkgutil.iter_modules` order, which sorts the directory listing), it imports
the module — swallowing any exception — and registers, for every class that
is a subclass of the factory's `FileHandler` and not `FileHandler` itself,
the class under `name.replace("Handler", "").lower()` (classes are visited
in `inspect.getmembers` name order).  The guard `if _HANDLERS: return` skips
the scan whenever the registry is non-empty.  `get_handler` triggers the
scan, lower-cases its argument, and either instantiates the registered class
(a fresh instance per call) or raises `UnsupportedFormatError` carrying the
argument as given. -/

/-- A class a plugin module exports, as discovery sees it: its name and
whether `issubclass(obj, FileHandler) and obj is not FileHandler` holds for
it (against the factory's `FileHandler`, i.e. `base_handler.FileHandler`). -/
structure PluginClass where
  name : String
  isHandlerSubclass : Bool
  deriving Repr, DecidableEq

/-- A module of the plugin package: whether its dynamic import succeeds
(a failed import is swallowed and registers nothing), and its classes in
`inspect.getmembers` order. -/
structure PluginModule where
  modName : String
  importOk : Bool
  classes : List PluginClass
  deriving Repr, DecidableEq

/-- The format identifier discovery derives from a class name:
`name.replace("Handler", "").lower()`.  The class names in the plugin
package contain `Handler` exactly once at the end, so the single-suffix
strip is `replace`'s effect on them. -/
def formatOfClassName (name : String) : String :=
  let cs := name.data
  pyLower (if cs.drop (cs.length - 7) = "Handler".data ∧ 7 ≤ cs.length then
    ⟨cs.take (cs.length - 7)⟩ else name)

/-- The registry: format identifier to handler class name, a Python dict. -/
abbrev Registry : Type := List (String × String)

/-- Process one plugin module: import it (or skip it wholesale when
the import fails) and assign every qualifying class into the registry, so a
later class deriving an already-taken identifier overwrites the earlier
binding. -/
def registerModule (reg : Registry) (m : PluginModule) : Registry :=
  if m.importOk then
    m.classes.foldl
      (fun r c => if c.isHandlerSubclass then dictSet r (formatOfClassName c.name) c.name else r)
      reg
  else reg

/-- The discovery scan over the whole plugin package, from an empty
`_HANDLERS`. -/
def runScan (mods : List PluginModule) : Registry :=
  mods.foldl registerModule []

/-- The factory's process-wide state: `_HANDLERS`, plus a count of completed
discovery scans (to state how often discovery runs) and an allocation
counter distinguishing handler instances. -/
structure FactoryState where
  handlers : Registry
  scans : Nat
  nextId : Nat
  deriving Repr, DecidableEq

/-- The state before any lookup: `_HANDLERS = {}`. -/
def initState : FactoryState := ⟨[], 0, 0⟩

/-- `_discover_handlers()` (handler_factory.py lines 38-70): return at once
when `_HANDLERS` is non-empty (`if _HANDLERS: return` — dict truthiness),
otherwise run the scan. -/
def discoverHandlers (mods : List PluginModule) (s : FactoryState) : FactoryState :=
  if s.handlers.isEmpty then { s with handlers := runScan mods, scans := s.scans + 1 }
  else s

/-- A handler instance: its class and the allocation that produced it
(`handler_class()` constructs a new object on every resolution). -/
structure HandlerInstance where
  className : String
  instanceId : Nat
  deriving Repr, DecidableEq

/-- `get_handler(file_extension)` (handler_factory.py lines 73-96): ensure
discovery ran, look the lower-cased extension up, and either construct a
fresh instance of the registered class or raise
`UnsupportedFormatError(file_extension, "No handler registered for this
file type")` with the extension as given. -/
def get_handler (mods : List PluginModule) (ext : String) (s : FactoryState) :
    Except PyExc HandlerInstance × FactoryState :=
  let s1 := discoverHandlers mods s
  match dictGet s1.handlers (pyLower ext) with
  | Option.some cls => (Except.ok ⟨cls, s1.nextId⟩, { s1 with nextId := s1.nextId + 1 })
  | Option.none =>
      (Except.error (PyExc.unsupportedFormatError ext "No handler registered for this file type"), s1)

/-- A run of consecutive `get_handler` calls, threading the factory state. -/
def runLookups (mods : List PluginModule) (exts : List String) (s : FactoryState) : FactoryState :=
  exts.foldl (fun st e => (get_handler mods e st).2) s

/-- The registration pairs (derived identifier, class name) one module
contributes, in discovery order; a module whose import fails (its exception
swallowed) contributes none. -/
def eligiblePairs (m : PluginModule) : List (String × String) :=
  if m.importOk then
    (m.classes.filter (fun c => c.isHandlerSubclass)).map
      (fun c => (formatOfClassName c.name, c.name))
  else []

/-- Every registration discovery performs, in enumeration order over the
whole plugin package. -/
def registrationSequence (mods : List PluginModule) : List (String × String) :=
  (mods.map eligiblePairs).join

/-- Fold a pair sequence into a registry by dict assignment, in order. -/
def assignAll (reg : Registry) (l : List (String × String)) : Registry :=
  l.foldl (fun r p => dictSet r p.1 p.2) reg

/-- The class name of the last pair registered under `f`, scanning a
registration sequence with later entries taking precedence. -/
def lastAssigned : List (String × String) → String → Option String
  | [], _ => Option.none
  | (k, v) :: l, f =>
    match lastAssigned l f with
    | Option.some w => Option.some w
    | Option.none => if k = f then Option.some v else Option.none

/-! ### The repository's plugin package

The modules under `src/plugins/`, in `pkgutil.iter_modules` (sorted) order,
each with the classes `inspect.getmembers` finds in it (name order), in the
package context the repository's tests set up (the `plugins` package on
the import path, so the factory's own `FileHandler` import resolves to
`base_handler.FileHandler`).  `json_handler`, `azw3_handler` and
`mobi_handler` use only the standard library at module level and always
load; `docx_handler`, `pdf_handler` and `pptx_handler` import third-party
packages at module level, so whether they import is a parameter.
`csv_handler.py` does not import `base_handler` at all — it defines its own
module-local `FileHandler` (csv_handler.py line 19) and derives `CsvHandler`
from that — so neither of its classes is a subclass of the factory's
`FileHandler` and the module registers nothing.  Imported members that are
the factory's `FileHandler` itself, exception classes, and non-class
members are not registrable and carry `isHandlerSubclass := false`. -/

/-- `src/plugins/` as discovery enumerates it. -/
def repoModules (docxOk pdfOk pptxOk : Bool) : List PluginModule :=
  [⟨"azw3_handler", true,
      [⟨"Azw3Handler", true⟩, ⟨"FileHandler", false⟩, ⟨"FileProcessingError", false⟩]⟩,
   ⟨"base_handler", true, [⟨"ABC", false⟩, ⟨"FileHandler", false⟩]⟩,
   ⟨"csv_handler", true,
      [⟨"CsvHandler", false⟩, ⟨"FileHandler", false⟩, ⟨"FileProcessingError", false⟩]⟩,
   ⟨"docx_handler", docxOk,
      [⟨"DocxHandler", true⟩, ⟨"FileHandler", false⟩, ⟨"FileProcessingError", false⟩]⟩,
   ⟨"handler_factory", true, [⟨"FileHandler", false⟩, ⟨"UnsupportedFormatError", false⟩]⟩,
   ⟨"json_handler", true,
      [⟨"FileHandler", false⟩, ⟨"FileProcessingError", false⟩, ⟨"JsonHandler", true⟩]⟩,
   ⟨"mobi_handler", true,
      [⟨"FileHandler", false⟩, ⟨"FileProcessingError", false⟩, ⟨"MobiHandler", true⟩]⟩,
   ⟨"pdf_handler", pdfOk,
      [⟨"BytesIO", false⟩, ⟨"FileHandler", false⟩, ⟨"FileProcessingError", false⟩,
       ⟨"PdfHandler", true⟩]⟩,
   ⟨"pptx_handler", pptxOk,
      [⟨"FileHandler", false⟩, ⟨"FileProcessingError", false⟩, ⟨"PptxHandler", true⟩]⟩]

end FileConverter

namespace FileConverter

/-! ## The orchestrator (`src/core/orchestrator.py`)

`orchestrator.py` imports `get_handler` from `plugins.handler_factory` and
`ConversionError` / `UnsupportedFormatError` from `core.exceptions`, and then
unconditionally redefines all of them at module level ("For standalone
testing, we'll define dummy versions", lines 12-31).  The module-level
definitions shadow the imports, so `convert_file` runs against the dummies:
`get_handler` is the local function that accepts only `csv`/`json` and
returns a dummy `FileHandler`, and `ConversionError` is a plain `Exception`
subclass that rejects keyword arguments. -/

/-- One observable step of a `convert_file` run: a call to the (module-local)
`get_handler`, or a dispatched `read`/`write` tagged with the name of the
handler class the call goes to. -/
inductive Event where
  | resolve (fmt : String) : Event
  | readCall (handlerClass path : String) : Event
  | writeCall (handlerClass path : String) : Event
  deriving Repr, DecidableEq

/-- The module-local `get_handler` of orchestrator.py (lines 27-31): only
`csv` and `json` are accepted, and the result is the module-local dummy
`FileHandler`, never a class from the plugins package.  The returned string
is the handler's class name. -/
def orchGetHandler (ext : String) : Except PyExc String :=
  if ext = "csv" ∨ ext = "json" then Except.ok "FileHandler"
  else Except.error (PyExc.dummyUnsupportedFormatError ("No handler for " ++ ext))

/-- The message of the `TypeError` a plain `Exception` subclass raises when
constructed with keyword arguments, as the two `except` blocks of
`convert_file` do with the dummy `ConversionError`
(`ConversionError(from_format=…, to_format=…, message=…)`). -/
def kwargsTypeError : PyExc :=
  PyExc.typeError "ConversionError() takes no keyword arguments"

/-- The `try` block of `convert_file` (orchestrator.py lines 48-72): derive
the two formats, fail on an empty one, resolve both handlers through the
module-local `get_handler`, then dispatch `read` and `write` to the dummy
`FileHandler`, whose methods only print and never touch the filesystem.
Returns the block's outcome together with the trace of resolution and
dispatch events. -/
def convertBody (input_path output_path : String) :
    Except PyExc Unit × List Event :=
  let input_format := deriveFormat input_path
  let output_format := deriveFormat output_path
  if input_format = "" ∨ output_format = "" then
    (Except.error (PyExc.dummyConversionError
      [input_format, output_format, "Could not determine file formats from paths."]), [])
  else
    match orchGetHandler input_format with
    | Except.error e => (Except.error e, [Event.resolve input_format])
    | Except.ok reader =>
      match orchGetHandler output_format with
      | Except.error e =>
          (Except.error e, [Event.resolve input_format, Event.resolve output_format])
      | Except.ok writer =>
          (Except.ok (), [Event.resolve input_format, Event.resolve output_format,
            Event.readCall reader input_path, Event.writeCall writer output_path])

/-- `convert_file(input_path, output_path)` (orchestrator.py lines 34-87).
Both `except` clauses construct the module-local dummy `ConversionError`
with keyword arguments, so whenever the `try` block raises anything — the
empty-format `ConversionError`, the dummy `UnsupportedFormatError`, or
anything else — the handler itself raises
`TypeError: ConversionError() takes no keyword arguments`, and that
`TypeError` is what reaches the caller. -/
def convert_file (input_path output_path : String) :
    Except PyExc Unit × List Event :=
  match convertBody input_path output_path with
  | (Except.ok u, tr) => (Except.ok u, tr)
  | (Except.error _, tr) => (Except.error kwargsTypeError, tr)

end FileConverter

namespace FileConverter

/-- Sanity example: a csv→json run succeeds against the dummy pipeline. -/
example :
    (convert_file "input.csv" "output.json").1 = Except.ok () := by decide

example :
    convert_file "input.csv" "output.xml" =
      (Except.error kwargsTypeError, [Event.resolve "csv", Event.resolve "xml"]) := by
  decide

example : convert_file "data" "out.json" = (Except.error kwargsTypeError, []) := by
  decide

example : pySplitext "archive.tar.gz" = ("archive.tar", ".gz") := by decide
example : pySplitext ".bashrc" = (".bashrc", "") := by decide
example : pySplitext "a.d/file" = ("a.d/file", "") := by decide
example : deriveFormat "IN.CSV" = "csv" := by decide

end FileConverter

namespace FileConverter

/-! ## Helper lemmas -/

/-- Reading a dict after an assignment. -/
theorem dictGet_dictSet {α : Type} (d : List (String × α)) (k : String) (v : α) (q : String) :
    dictGet (dictSet d k v) q = if q = k then Option.some v else dictGet d q := by
  induction d with
  | nil =>
    by_cases h : q = k
    · simp [dictSet, dictGet, h]
    · have h2 : ¬k = q := fun hkq => h hkq.symm
      simp [dictSet, dictGet, h, h2]
  | cons e d ih =>
    obtain ⟨ek, ev⟩ := e
    by_cases hek : ek = k
    · subst hek
      by_cases hq : q = ek
      · simp [dictSet, dictGet, hq]
      · have h2 : ¬ek = q := fun hkq => hq hkq.symm
        simp [dictSet, dictGet, hq, h2]
    · by_cases hq : q = ek
      · subst hq
        have h2 : ¬q = k := hek
        simp [dictSet, dictGet, hek, h2]
      · have h2 : ¬ek = q := fun hkq => hq hkq.symm
        simp [dictSet, dictGet, hek, h2, ih]

/-- `json.load` inverts `json.dump` elementwise on lists. -/
theorem jsonLoadList_jsonDumpList (xs : List PyVal) (ih : ∀ x ∈ xs, jsonLoad (jsonDump x) = x) :
    jsonLoadList (jsonDumpList xs) = xs := by
  induction xs with
  | nil => rfl
  | cons x xs ihx =>
    simp only [jsonDumpList, jsonLoadList, List.cons.injEq]
    exact ⟨ih x (by simp), ihx (fun a ha => ih a (by simp [ha]))⟩

/-- `json.load` inverts `json.dump` elementwise on object members. -/
theorem jsonLoadPairs_jsonDumpPairs (kvs : List (String × PyVal))
    (ih : ∀ kv ∈ kvs, jsonLoad (jsonDump kv.2) = kv.2) :
    jsonLoadPairs (jsonDumpPairs kvs) = kvs := by
  induction kvs with
  | nil => rfl
  | cons kv kvs ihx =>
    obtain ⟨k, v⟩ := kv
    simp only [jsonDumpPairs, jsonLoadPairs, List.cons.injEq, Prod.mk.injEq, true_and]
    exact ⟨ih ⟨k, v⟩ (by simp), ihx (fun a ha => ih a (by simp [ha]))⟩

/-- `json.load` inverts `json.dump`: every value in the model's universe
survives serialization unchanged. -/
theorem jsonLoad_jsonDump (v : PyVal) : jsonLoad (jsonDump v) = v := by
  induction v using PyVal.inductionOn with
  | hnone => rfl
  | hbool b => rfl
  | hint n => rfl
  | hstr s => rfl
  | hlist xs ih => simp only [jsonDump, jsonLoad, jsonLoadList_jsonDumpList xs ih]
  | hdict kvs ih => simp only [jsonDump, jsonLoad, jsonLoadPairs_jsonDumpPairs kvs ih]

end FileConverter

namespace FileConverter

/-! ## Claim theorems -/

/-- C1: the claim says every failure after format derivation is re-raised as
a `ConversionError` naming both formats and wrapping the cause, and that no
handler-level error reaches the caller raw.  The code cannot do this: the
module-local `class ConversionError(Exception): pass` shadows the import
from `core.exceptions`, and both `except` clauses construct it with keyword
arguments, which a plain `Exception` subclass rejects — so an unsupported
destination format surfaces a raw
`TypeError: ConversionError() takes no keyword arguments` instead.  Here
`convert_file("input.csv", "output.xml")` has its handler-resolution failure
(the dummy unsupported-format error, after both resolutions are attempted)
replaced by that `TypeError`. -/
theorem convert_file_raises_typeError_not_conversionError :
    convertBody "input.csv" "output.xml" =
      (Except.error (PyExc.dummyUnsupportedFormatError "No handler for xml"),
       [Event.resolve "csv", Event.resolve "xml"]) ∧
    convert_file "input.csv" "output.xml" =
      (Except.error (PyExc.typeError "ConversionError() takes no keyword arguments"),
       [Event.resolve "csv", Event.resolve "xml"]) ∧
    (∀ fromF toF msg,
      (convert_file "input.csv" "output.xml").1 ≠
        Except.error (PyExc.conversionError fromF toF msg)) := by
  refine ⟨by decide, by decide, ?_⟩
  intro fromF toF msg h
  have h2 : (convert_file "input.csv" "output.xml").1 =
      Except.error (PyExc.typeError "ConversionError() takes no keyword arguments") := by
    decide
  rw [h2] at h
  cases h

/-- C3: the claim says that with an underivable format `convert_file` fails
with a conversion error carrying both (possibly empty) formats and a
could-not-determine reason, before any I/O or handler resolution.  The
ordering holds — the `try` block raises the (dummy) `ConversionError` with
exactly those positional arguments and an empty event trace, so nothing was
resolved, read or written — but that error is then caught by the generic
`except Exception` clause, whose keyword re-wrap of the dummy
`ConversionError` raises `TypeError`, which is what the caller sees. -/
theorem convert_file_empty_format_before_io :
    convertBody "data" "out.json" =
      (Except.error (PyExc.dummyConversionError
        ["", "json", "Could not determine file formats from paths."]), []) ∧
    convert_file "data" "out.json" =
      (Except.error (PyExc.typeError "ConversionError() takes no keyword arguments"), []) := by
  exact ⟨by decide, by decide⟩

/-- C4: the claim says the orchestrator resolves handlers through the
registry's `handler_factory.get_handler` and dispatches to the registered
classes.  In the code the module-local dummy `get_handler` (orchestrator.py
lines 27-31) shadows the factory import: whatever third-party imports
succeed, the registry maps `json` to `JsonHandler` — and has no entry at
all for `csv`, since `CsvHandler` subclasses the module-local dummy
`FileHandler` of csv_handler.py rather than `base_handler.FileHandler` —
yet `convert_file` dispatches both `read` and `write` to the orchestrator's
own dummy `FileHandler` after consulting its own `ext in ['csv', 'json']`
list. -/
theorem convert_file_bypasses_registry :
    (∀ docxOk pdfOk pptxOk : Bool,
      dictGet (runScan (repoModules docxOk pdfOk pptxOk)) "json" = Option.some "JsonHandler" ∧
      dictGet (runScan (repoModules docxOk pdfOk pptxOk)) "csv" = Option.none) ∧
    convert_file "in.csv" "out.json" =
      (Except.ok (),
       [Event.resolve "csv", Event.resolve "json",
        Event.readCall "FileHandler" "in.csv", Event.writeCall "FileHandler" "out.json"]) := by
  constructor
  · intro docxOk pdfOk pptxOk
    cases docxOk <;> cases pdfOk <;> cases pptxOk <;> exact ⟨by decide, by decide⟩
  · decide

/-- `_discover_handlers` never touches the allocation counter. -/
theorem discoverHandlers_nextId (mods : List PluginModule) (s : FactoryState) :
    (discoverHandlers mods s).nextId = s.nextId := by
  simp only [discoverHandlers]
  split <;> rfl

/-- Both branches of `get_handler` leave `_HANDLERS` and the scan count as
discovery left them. -/
theorem get_handler_state (mods : List PluginModule) (ext : String) (s : FactoryState) :
    ((get_handler mods ext s).2).handlers = (discoverHandlers mods s).handlers ∧
    ((get_handler mods ext s).2).scans = (discoverHandlers mods s).scans := by
  cases h : dictGet (discoverHandlers mods s).handlers (pyLower ext) <;>
    simp [get_handler, h]

/-- With a populated registry, discovery returns at once
(`if _HANDLERS: return`). -/
theorem discoverHandlers_skip (mods : List PluginModule) (s : FactoryState)
    (h : s.handlers ≠ []) : discoverHandlers mods s = s := by
  simp only [discoverHandlers, List.isEmpty_iff]
  rw [if_neg h]

/-- C5: `handler_factory.get_handler` lower-cases its argument and looks the
result up in the discovered registry; a registered identifier yields a
freshly constructed instance of the registered class (allocated at the
state's next allocation index, which the call then advances), an
unregistered one raises `UnsupportedFormatError` carrying the identifier as
supplied; and two successful resolutions never share an instance. -/
theorem get_handler_resolution (mods : List PluginModule) (s : FactoryState) (ext : String) :
    (∀ cls, dictGet (discoverHandlers mods s).handlers (pyLower ext) = Option.some cls →
      get_handler mods ext s =
        (Except.ok ⟨cls, (discoverHandlers mods s).nextId⟩,
         { discoverHandlers mods s with nextId := (discoverHandlers mods s).nextId + 1 })) ∧
    (dictGet (discoverHandlers mods s).handlers (pyLower ext) = Option.none →
      get_handler mods ext s =
        (Except.error (PyExc.unsupportedFormatError ext "No handler registered for this file type"),
         discoverHandlers mods s)) ∧
    (∀ ext2 inst1 st1 inst2 st2,
      get_handler mods ext s = (Except.ok inst1, st1) →
      get_handler mods ext2 st1 = (Except.ok inst2, st2) →
      inst1.instanceId ≠ inst2.instanceId) := by
  refine ⟨?_, ?_, ?_⟩
  · intro cls h
    simp [get_handler, h]
  · intro h
    simp [get_handler, h]
  · intro ext2 inst1 st1 inst2 st2 h1 h2
    cases hd1 : dictGet (discoverHandlers mods s).handlers (pyLower ext) with
    | none =>
      simp [get_handler, hd1] at h1
    | some cls1 =>
      simp only [get_handler, hd1] at h1
      rw [Prod.mk.injEq] at h1
      obtain ⟨h1a, h1b⟩ := h1
      injection h1a with h1a
      cases hd2 : dictGet (discoverHandlers mods st1).handlers (pyLower ext2) with
      | none =>
        simp [get_handler, hd2] at h2
      | some cls2 =>
        simp only [get_handler, hd2] at h2
        rw [Prod.mk.injEq] at h2
        obtain ⟨h2a, h2b⟩ := h2
        injection h2a with h2a
        rw [← h1a, ← h2a]
        simp only [← h1b, discoverHandlers_nextId]
        omega

/-- C5 witness: resolving `"JSON"` on the repository's plugin package from
the initial state constructs `JsonHandler` instance 0 (lower-casing the
identifier first), and the unregistered identifier `"csv"` raises the
unsupported-format error carrying `"csv"`. -/
theorem get_handler_resolution_witness :
    get_handler (repoModules true true true) "JSON" initState =
      (Except.ok ⟨"JsonHandler", (discoverHandlers (repoModules true true true) initState).nextId⟩,
       { discoverHandlers (repoModules true true true) initState with
          nextId := (discoverHandlers (repoModules true true true) initState).nextId + 1 }) ∧
    (get_handler (repoModules true true true) "csv" initState).1 =
      Except.error (PyExc.unsupportedFormatError "csv" "No handler registered for this file type") ∧
    (discoverHandlers (repoModules true true true) initState).nextId = 0 := by
  refine ⟨(get_handler_resolution (repoModules true true true) initState "JSON").1
    "JsonHandler" (by decide), ?_, by decide⟩
  rw [(get_handler_resolution (repoModules true true true) initState "csv").2.1 (by decide)]

/-- Once `_HANDLERS` is populated, any further lookups leave the registry
and the scan count unchanged. -/
theorem runLookups_stable (mods : List PluginModule) (exts : List String) :
    ∀ s : FactoryState, s.handlers ≠ [] →
      (runLookups mods exts s).handlers = s.handlers ∧
      (runLookups mods exts s).scans = s.scans := by
  induction exts with
  | nil => intro s _; exact ⟨rfl, rfl⟩
  | cons e rest ih =>
    intro s hs
    have hstep := get_handler_state mods e s
    rw [discoverHandlers_skip mods s hs] at hstep
    have hrec := ih ((get_handler mods e s).2) (by rw [hstep.1]; exact hs)
    simp only [runLookups, List.foldl_cons] at hrec ⊢
    rw [hrec.1, hrec.2, hstep.1, hstep.2]
    exact ⟨rfl, rfl⟩

/-- The repository's plugin package always yields a non-empty registry
(`json_handler`, `azw3_handler` and `mobi_handler` import unconditionally),
whichever third-party imports succeed. -/
theorem runScan_repo_ne_nil (docxOk pdfOk pptxOk : Bool) :
    runScan (repoModules docxOk pdfOk pptxOk) ≠ [] := by
  cases docxOk <;> cases pdfOk <;> cases pptxOk <;> decide

/-- C8: over the repository's plugin package, the first lookup runs the
discovery scan and populates `_HANDLERS`; after any non-empty sequence of
lookups the scan has run exactly once and the registry still holds exactly
the one scan's registrations — later lookups neither re-scan nor change a
registration. -/
theorem discovery_runs_once (docxOk pdfOk pptxOk : Bool) (exts : List String)
    (hne : exts ≠ []) :
    (runLookups (repoModules docxOk pdfOk pptxOk) exts initState).handlers =
      runScan (repoModules docxOk pdfOk pptxOk) ∧
    (runLookups (repoModules docxOk pdfOk pptxOk) exts initState).scans = 1 := by
  match exts, hne with
  | e :: rest, _ =>
    have hstep := get_handler_state (repoModules docxOk pdfOk pptxOk) e initState
    have hdisc : discoverHandlers (repoModules docxOk pdfOk pptxOk) initState =
        ⟨runScan (repoModules docxOk pdfOk pptxOk), 1, 0⟩ := rfl
    rw [hdisc] at hstep
    have hrec := runLookups_stable (repoModules docxOk pdfOk pptxOk) rest
      ((get_handler (repoModules docxOk pdfOk pptxOk) e initState).2)
      (by rw [hstep.1]; exact runScan_repo_ne_nil docxOk pdfOk pptxOk)
    simp only [runLookups, List.foldl_cons] at hrec ⊢
    rw [hrec.1, hrec.2, hstep.1, hstep.2]
    exact ⟨rfl, rfl⟩

/-- C8 witness: three lookups (two of them repeats) on the fully importable
package leave one completed scan and the one scan's registry. -/
theorem discovery_runs_once_witness :
    (runLookups (repoModules true true true) ["json", "pdf", "json"] initState).handlers =
      runScan (repoModules true true true) ∧
    (runLookups (repoModules true true true) ["json", "pdf", "json"] initState).scans = 1 :=
  discovery_runs_once true true true ["json", "pdf", "json"] (by decide)

/-- Reading a registry built by a sequence of dict assignments finds the
value of the last assignment to the key, falling back to the base registry. -/
theorem assignAll_get : ∀ (l : List (String × String)) (reg : Registry) (f : String),
    dictGet (assignAll reg l) f =
      match lastAssigned l f with
      | Option.some w => Option.some w
      | Option.none => dictGet reg f := by
  intro l
  induction l with
  | nil => intro reg f; rfl
  | cons p l ih =>
    intro reg f
    obtain ⟨k, v⟩ := p
    simp only [assignAll, List.foldl_cons] at ih ⊢
    rw [ih (dictSet reg k v) f]
    cases hl : lastAssigned l f with
    | some w => simp [lastAssigned, hl]
    | none =>
      simp only [lastAssigned, hl, dictGet_dictSet]
      by_cases hk : k = f
      · simp [hk]
      · have h2 : ¬f = k := fun h => hk h.symm
        simp [hk, h2]

/-- Folding one module into the registry performs exactly its registration
pairs, in order. -/
theorem registerModule_assignAll (m : PluginModule) (reg : Registry) :
    registerModule reg m = assignAll reg (eligiblePairs m) := by
  by_cases h : m.importOk
  · simp only [registerModule, h, if_pos, eligiblePairs]
    generalize m.classes = cs
    induction cs generalizing reg with
    | nil => rfl
    | cons c cs ih =>
      by_cases hc : c.isHandlerSubclass <;>
        simp [assignAll, hc, ih] at ih ⊢ <;> rw [ih]
  · simp [registerModule, eligiblePairs, h, assignAll]

/-- The whole scan is the fold of the package's registration sequence. -/
theorem runScan_assignAll : ∀ (mods : List PluginModule) (reg : Registry),
    mods.foldl registerModule reg = assignAll reg (registrationSequence mods) := by
  intro mods
  induction mods with
  | nil => intro reg; rfl
  | cons m mods ih =>
    intro reg
    simp only [List.foldl_cons, registrationSequence, List.map_cons, List.join,
      assignAll, List.foldl_append]
    rw [registerModule_assignAll m reg]
    have := ih (assignAll reg (eligiblePairs m))
    simpa [registrationSequence, assignAll] using this

/-- C9: when two discovered classes derive the same format identifier, the
registry ends up mapping the identifier to the class registered later in
enumeration order (`_HANDLERS[format_name] = obj` overwrites), and a module
whose import raises — here `bad` anywhere in the enumeration — registers
nothing while leaving every other module's registrations intact: the scan
of `pre ++ bad :: post` reads exactly as the last-registration-wins view of
the registration sequence of `pre ++ post`. -/
theorem discovery_last_wins (pre post : List PluginModule) (bad : PluginModule) (f : String)
    (hbad : bad.importOk = false) :
    dictGet (runScan (pre ++ bad :: post)) f =
      lastAssigned (registrationSequence (pre ++ post)) f := by
  have h1 : runScan (pre ++ bad :: post) =
      assignAll [] (registrationSequence (pre ++ bad :: post)) :=
    runScan_assignAll (pre ++ bad :: post) []
  have h2 : registrationSequence (pre ++ bad :: post) = registrationSequence (pre ++ post) := by
    simp [registrationSequence, eligiblePairs, hbad]
  rw [h1, h2, assignAll_get]
  cases lastAssigned (registrationSequence (pre ++ post)) f <;> rfl

/-- C9 witness: `JSONHandler` in an early module and `JsonHandler` in a late
one both derive `json`; with a broken module in between, the scan registers
the later class and nothing from the broken module. -/
theorem discovery_last_wins_witness :
    dictGet (runScan
        [⟨"a_mod", true, [⟨"JSONHandler", true⟩]⟩,
         ⟨"broken_mod", false, [⟨"XmlHandler", true⟩]⟩,
         ⟨"z_mod", true, [⟨"JsonHandler", true⟩]⟩]) "json" =
      Option.some "JsonHandler" ∧
    dictGet (runScan
        [⟨"a_mod", true, [⟨"JSONHandler", true⟩]⟩,
         ⟨"broken_mod", false, [⟨"XmlHandler", true⟩]⟩,
         ⟨"z_mod", true, [⟨"JsonHandler", true⟩]⟩]) "xml" =
      Option.none := by
  constructor
  · rw [show
      ([⟨"a_mod", true, [⟨"JSONHandler", true⟩]⟩,
        ⟨"broken_mod", false, [⟨"XmlHandler", true⟩]⟩,
        ⟨"z_mod", true, [⟨"JsonHandler", true⟩]⟩] : List PluginModule) =
      [⟨"a_mod", true, [⟨"JSONHandler", true⟩]⟩] ++
        (⟨"broken_mod", false, [⟨"XmlHandler", true⟩]⟩ :
          PluginModule) :: [⟨"z_mod", true, [⟨"JsonHandler", true⟩]⟩] from rfl]
    rw [discovery_last_wins _ _ _ "json" rfl]
    decide
  · rw [show
      ([⟨"a_mod", true, [⟨"JSONHandler", true⟩]⟩,
        ⟨"broken_mod", false, [⟨"XmlHandler", true⟩]⟩,
        ⟨"z_mod", true, [⟨"JsonHandler", true⟩]⟩] : List PluginModule) =
      [⟨"a_mod", true, [⟨"JSONHandler", true⟩]⟩] ++
        (⟨"broken_mod", false, [⟨"XmlHandler", true⟩]⟩ :
          PluginModule) :: [⟨"z_mod", true, [⟨"JsonHandler", true⟩]⟩] from rfl]
    rw [discovery_last_wins _ _ _ "xml" rfl]
    decide

/-- When every key of a record is one of the fieldnames, the
`extrasaction='raise'` check finds nothing. -/
theorem wrong_fields_nil (headers : List String) (keys : List String)
    (h : ∀ k ∈ keys, k ∈ headers) :
    keys.filter (fun k => ¬ headers.contains k) = [] := by
  rw [List.filter_eq_nil]
  intro a ha
  simp [h a ha]

/-- With distinct keys, looking each key back up in the record and rendering
it reproduces the record's cells in order. -/
theorem dictGet_row (kvs : List (String × PyVal)) (hnd : (kvs.map Prod.fst).Nodup) :
    (kvs.map Prod.fst).map (fun f => csvField ((dictGet kvs f).getD PyVal.none)) =
      kvs.map (fun kv => csvField kv.2) := by
  induction kvs with
  | nil => rfl
  | cons kv kvs ih =>
    obtain ⟨k, v⟩ := kv
    simp only [List.map_cons] at hnd ⊢
    rw [List.nodup_cons] at hnd
    congr 1
    · simp [dictGet]
    · have hcong : (kvs.map Prod.fst).map
          (fun f => csvField ((dictGet ((k, v) :: kvs) f).getD PyVal.none)) =
          (kvs.map Prod.fst).map (fun f => csvField ((dictGet kvs f).getD PyVal.none)) := by
        apply List.map_congr_left
        intro f hf
        have hkf : ¬k = f := fun h => hnd.1 (h ▸ hf)
        simp [dictGet, hkf]
      rw [hcong, ih hnd.2]

/-- A record whose keys are exactly the header, with the header free of
duplicates, converts without error into its own row. -/
theorem dictWriterRow_ok (kvs : List (String × PyVal))
    (hnd : (kvs.map Prod.fst).Nodup) :
    dictWriterRow (kvs.map Prod.fst) (PyVal.dict kvs) =
      Except.ok (rowOf (PyVal.dict kvs)) := by
  simp only [dictWriterRow, rowOf]
  rw [wrong_fields_nil _ _ (fun k hk => hk)]
  simp [dictGet_row kvs hnd]

/-- Zipping the header back over a string-valued record's own row restores
the record. -/
theorem zipRestval_rowOf (kvs : List (String × PyVal))
    (hs : ∀ kv ∈ kvs, isStr kv.2 = true) :
    zipRestval (kvs.map Prod.fst) (kvs.map (fun kv => csvField kv.2)) = kvs := by
  induction kvs with
  | nil => rfl
  | cons kv kvs ih =>
    obtain ⟨k, v⟩ := kv
    have hv := hs ⟨k, v⟩ (by simp)
    cases v with
    | str s =>
      simp only [List.map_cons, zipRestval, List.cons.injEq, Prod.mk.injEq, true_and]
      exact ⟨by simp [csvField, pyStr], ih (fun a ha => hs a (by simp [ha]))⟩
    | none => simp [isStr] at hv
    | bool b => simp [isStr] at hv
    | int n => simp [isStr] at hv
    | list xs => simp [isStr] at hv
    | dict xs => simp [isStr] at hv

/-- When every record converts cleanly, `writerows` writes every row and
reports no failure. -/
theorem writeRowsAux_ok (headers : List String) :
    ∀ data : List PyVal, (∀ r ∈ data, dictWriterRow headers r = Except.ok (rowOf r)) →
      writeRowsAux headers data = (data.map rowOf, Option.none) := by
  intro data
  induction data with
  | nil => intro _; rfl
  | cons r rest ih =>
    intro h
    simp only [writeRowsAux, h r (by simp), List.map_cons]
    rw [ih (fun a ha => h a (by simp [ha]))]

/-- When some record holds a key outside the fieldnames, `writerows` stops
with a failure (at the first record that fails to convert). -/
theorem writeRowsAux_extra (headers : List String) :
    ∀ data : List PyVal, data.any (hasExtraKey headers) = true →
      ∃ m, (writeRowsAux headers data).2 = Option.some m := by
  intro data
  induction data with
  | nil => intro h; cases h
  | cons r rest ih =>
    intro h
    cases hrow : dictWriterRow headers r with
    | error m => exact ⟨m, by simp [writeRowsAux, hrow]⟩
    | ok row =>
      have hfalse : hasExtraKey headers r = false := by
        cases r with
        | dict kvs =>
          simp only [hasExtraKey, decide_eq_false_iff_not, ne_eq, not_not]
          by_contra hne
          have hwrong : ((kvs.map Prod.fst).filter (fun k => ¬ headers.contains k)).isEmpty
              = false := by
            cases hcase : ((kvs.map Prod.fst).filter (fun k => ¬ headers.contains k)).isEmpty
            · rfl
            · exact absurd (List.isEmpty_iff.mp hcase) hne
          simp only [dictWriterRow, hwrong] at hrow
          simp at hrow
        | none => rfl
        | bool b => rfl
        | int n => rfl
        | str s => rfl
        | list xs => rfl
      rw [List.any_cons, hfalse, Bool.false_or] at h
      obtain ⟨m, hm⟩ := ih h
      refine ⟨m, ?_⟩
      simp only [writeRowsAux, hrow]
      exact hm

/-- Writing records whose key lists all equal the (duplicate-free) header
succeeds and lays down the header row followed by one row per record. -/
theorem csvHandlerWrite_clean (fs : FS) (path : String)
    (kvs0 : List (String × PyVal)) (rest : List PyVal)
    (hnd : (kvs0.map Prod.fst).Nodup)
    (hk : ∀ r ∈ (PyVal.dict kvs0 :: rest), recKeys r = Option.some (kvs0.map Prod.fst)) :
    csvHandlerWrite fs path (PyVal.dict kvs0 :: rest) =
      (dictSet fs path (FileContent.csvFile
        ((kvs0.map Prod.fst) :: (PyVal.dict kvs0 :: rest).map rowOf)), Except.ok ()) := by
  have hrows : writeRowsAux (kvs0.map Prod.fst) (PyVal.dict kvs0 :: rest) =
      ((PyVal.dict kvs0 :: rest).map rowOf, Option.none) := by
    apply writeRowsAux_ok
    intro r hr
    have hkr := hk r hr
    cases r with
    | dict kvs =>
      simp only [recKeys, Option.some.injEq] at hkr
      rw [← hkr]
      exact dictWriterRow_ok kvs (by rw [hkr]; exact hnd)
    | none => simp [recKeys] at hkr
    | bool b => simp [recKeys] at hkr
    | int n => simp [recKeys] at hkr
    | str s => simp [recKeys] at hkr
    | list xs => simp [recKeys] at hkr
  simp only [csvHandlerWrite, hrows]

/-- Reading back a file whose rows are the header plus one row per record
(keys equal to the non-empty header, values strings) restores the records. -/
theorem csvHandlerRead_back (fs : FS) (path : String)
    (kvs0 : List (String × PyVal)) (rest : List PyVal)
    (h0 : kvs0 ≠ [])
    (hk : ∀ r ∈ (PyVal.dict kvs0 :: rest), recKeys r = Option.some (kvs0.map Prod.fst))
    (hs : ∀ r ∈ (PyVal.dict kvs0 :: rest), allStrVals r = true) :
    csvHandlerRead (dictSet fs path (FileContent.csvFile
        ((kvs0.map Prod.fst) :: (PyVal.dict kvs0 :: rest).map rowOf))) path =
      Except.ok (PyVal.dict kvs0 :: rest) := by
  have hget := dictGet_dictSet fs path
    (FileContent.csvFile ((kvs0.map Prod.fst) :: (PyVal.dict kvs0 :: rest).map rowOf)) path
  rw [if_pos rfl] at hget
  simp only [csvHandlerRead, hget]
  have hrow_shape : ∀ r ∈ (PyVal.dict kvs0 :: rest),
      ∃ kvs, r = PyVal.dict kvs ∧ kvs.map Prod.fst = kvs0.map Prod.fst ∧
        (∀ kv ∈ kvs, isStr kv.2 = true) := by
    intro r hr
    have hkr := hk r hr
    have hsr := hs r hr
    cases r with
    | dict kvs =>
      simp only [recKeys, Option.some.injEq] at hkr
      simp only [allStrVals, List.all_eq_true] at hsr
      exact ⟨kvs, rfl, hkr, hsr⟩
    | none => simp [recKeys] at hkr
    | bool b => simp [recKeys] at hkr
    | int n => simp [recKeys] at hkr
    | str s => simp [recKeys] at hkr
    | list xs => simp [recKeys] at hkr
  have hfilter : ((PyVal.dict kvs0 :: rest).map rowOf).filter (fun r => ¬ r.isEmpty) =
      (PyVal.dict kvs0 :: rest).map rowOf := by
    rw [List.filter_eq_self]
    intro row hrow
    rw [List.mem_map] at hrow
    obtain ⟨r, hr, hreq⟩ := hrow
    obtain ⟨kvs, hre, hkeq, _⟩ := hrow_shape r hr
    subst hre
    subst hreq
    have hne : kvs ≠ [] := by
      intro hnil
      apply h0
      rw [hnil] at hkeq
      cases hkvs0 : kvs0 with
      | nil => rfl
      | cons a l => rw [hkvs0] at hkeq; cases hkeq
    simp only [rowOf]
    cases kvs with
    | nil => exact absurd rfl hne
    | cons kv kvs => simp
  rw [hfilter, List.map_map]
  congr 1
  have hmap : (PyVal.dict kvs0 :: rest).map (dictReaderRow (kvs0.map Prod.fst) ∘ rowOf) =
      (PyVal.dict kvs0 :: rest).map id := by
    apply List.map_congr_left
    intro r hr
    obtain ⟨kvs, hre, hkeq, hstr⟩ := hrow_shape r hr
    subst hre
    simp only [Function.comp_apply, id_eq, rowOf, dictReaderRow]
    rw [← hkeq, zipRestval_rowOf kvs hstr]
  rw [hmap, List.map_id]

/-- C7 counterexample: the claim asserts verbatim preservation of per-record
key-value pairs for every (in particular CSV) round trip.  Writing the
single record with integer value `1` under key `id` through `CsvHandler`
and reading it back yields the string `"1"` — the `csv` writer renders every
cell with `str()` and `DictReader` reads every cell as a string — so the
pair is not preserved verbatim. -/
theorem csv_roundtrip_not_verbatim :
    (csvHandlerWrite [] "t.csv" [PyVal.dict [("id", PyVal.int 1)]]).2 = Except.ok () ∧
    csvHandlerRead (csvHandlerWrite [] "t.csv" [PyVal.dict [("id", PyVal.int 1)]]).1 "t.csv" =
      Except.ok [PyVal.dict [("id", PyVal.str "1")]] ∧
    Except.ok [PyVal.dict [("id", PyVal.str "1")]] ≠
      (Except.ok [PyVal.dict [("id", PyVal.int 1)]] : Except PyExc (List PyVal)) :=
  ⟨by decide, by decide, by decide⟩

/-- C7 (amended): writing a non-empty record sequence and reading it back
with the same handler preserves the sequence exactly when the format does —
`JsonHandler.write` followed by `JsonHandler.read` returns the original
sequence for every non-empty sequence of model values, and the CSV round
trip restores the original sequence whenever every record is a dict with
the first record's (non-empty, duplicate-free) key list and all values are
strings; non-string CSV values come back as their `str()` rendering
(the counterexample above). -/
theorem roundtrip_same_format :
    (∀ (fs : FS) (path : String) (data : List PyVal), data ≠ [] →
      (jsonHandlerWrite fs path data).2 = Except.ok () ∧
      jsonHandlerRead (jsonHandlerWrite fs path data).1 path = Except.ok data) ∧
    (∀ (fs : FS) (path : String) (kvs0 : List (String × PyVal)) (rest : List PyVal),
      kvs0 ≠ [] → (kvs0.map Prod.fst).Nodup →
      (∀ r ∈ (PyVal.dict kvs0 :: rest), recKeys r = Option.some (kvs0.map Prod.fst)) →
      (∀ r ∈ (PyVal.dict kvs0 :: rest), allStrVals r = true) →
      (csvHandlerWrite fs path (PyVal.dict kvs0 :: rest)).2 = Except.ok () ∧
      csvHandlerRead (csvHandlerWrite fs path (PyVal.dict kvs0 :: rest)).1 path =
        Except.ok (PyVal.dict kvs0 :: rest)) := by
  constructor
  · intro fs path data _
    refine ⟨rfl, ?_⟩
    have hget := dictGet_dictSet fs path
      (FileContent.jsonFile (jsonDump (PyVal.list data))) path
    rw [if_pos rfl] at hget
    simp only [jsonHandlerWrite, jsonHandlerRead, hget, jsonLoad_jsonDump]
  · intro fs path kvs0 rest h0 hnd hk hs
    rw [csvHandlerWrite_clean fs path kvs0 rest hnd hk]
    exact ⟨rfl, csvHandlerRead_back fs path kvs0 rest h0 hk hs⟩

/-- C7 witness: a concrete JSON round trip of one record with an integer
value, and a concrete CSV round trip of two single-field string records. -/
theorem roundtrip_same_format_witness :
    ((jsonHandlerWrite [] "d.json" [PyVal.dict [("k", PyVal.int 7)]]).2 = Except.ok () ∧
      jsonHandlerRead (jsonHandlerWrite [] "d.json" [PyVal.dict [("k", PyVal.int 7)]]).1
        "d.json" = Except.ok [PyVal.dict [("k", PyVal.int 7)]]) ∧
    ((csvHandlerWrite [] "d.csv"
        [PyVal.dict [("a", PyVal.str "x")], PyVal.dict [("a", PyVal.str "y")]]).2 =
      Except.ok () ∧
      csvHandlerRead (csvHandlerWrite [] "d.csv"
        [PyVal.dict [("a", PyVal.str "x")], PyVal.dict [("a", PyVal.str "y")]]).1 "d.csv" =
      Except.ok [PyVal.dict [("a", PyVal.str "x")], PyVal.dict [("a", PyVal.str "y")]]) :=
  ⟨roundtrip_same_format.1 [] "d.json" [PyVal.dict [("k", PyVal.int 7)]] (by decide),
   roundtrip_same_format.2 [] "d.csv" [("a", PyVal.str "x")] [PyVal.dict [("a", PyVal.str "y")]]
     (by decide) (by decide) (by decide) (by decide)⟩

/-- C2 counterexample: the claim says every writer - `JsonHandler.write`
in particular - fails on an empty record sequence with a validation error
and creates no destination file.  `JsonHandler.write` has no empty-input
check: on an empty filesystem it succeeds and creates the destination file
holding an empty JSON array. -/
theorem jsonHandlerWrite_empty_succeeds :
    jsonHandlerWrite [] "out.json" [] =
      ([("out.json", FileContent.jsonFile (JsonVal.arr []))], Except.ok ()) ∧
    dictGet (jsonHandlerWrite [] "out.json" []).1 "out.json" ≠ Option.none := by
  constructor
  · rfl
  · intro h
    cases h

/-- C2 (amended): `CsvHandler.write` rejects an empty record sequence with
`ValueError("Input data for CSV writing cannot be empty.")` and leaves the
filesystem untouched (the check precedes `open`), while `JsonHandler.write`
accepts the empty sequence and creates or overwrites the destination with
an empty JSON array. -/
theorem writers_on_empty_records (fs : FS) (path : String) :
    csvHandlerWrite fs path [] =
      (fs, Except.error (PyExc.valueError "Input data for CSV writing cannot be empty.")) ∧
    jsonHandlerWrite fs path [] =
      (dictSet fs path (FileContent.jsonFile (JsonVal.arr [])), Except.ok ()) :=
  ⟨rfl, rfl⟩

end FileConverter

namespace FileConverter

/-- C6: read operations deliver a sequence, never an absent value or a bare
mapping: `CsvHandler.read` on any existing CSV content returns a list — in
particular the empty list for an empty file — and `JsonHandler.read` turns
any document whose root is not a list into a file-processing error, so what
it returns on success is always the root list. -/
theorem read_yields_sequence (fs : FS) (path : String) :
    (dictGet fs path = Option.some (FileContent.csvFile []) →
      csvHandlerRead fs path = Except.ok []) ∧
    (∀ rows, dictGet fs path = Option.some (FileContent.csvFile rows) →
      ∃ l, csvHandlerRead fs path = Except.ok l) ∧
    (∀ v, dictGet fs path = Option.some (FileContent.jsonFile v) →
      (∀ xs, jsonLoad v ≠ PyVal.list xs) →
      jsonHandlerRead fs path = Except.error (PyExc.fileProcessingError path
        "JSON content has wrong structure: JSON content must be a list of objects.")) := by
  refine ⟨?_, ?_, ?_⟩
  · intro h
    simp [csvHandlerRead, h]
  · intro rows h
    cases rows with
    | nil => exact ⟨[], by simp [csvHandlerRead, h]⟩
    | cons header body =>
      exact ⟨(body.filter (fun r => ¬ r.isEmpty)).map (dictReaderRow header),
        by simp [csvHandlerRead, h]⟩
  · intro v h hnotlist
    simp only [jsonHandlerRead, h]

/-- C6 witness: an empty CSV file reads as the empty list, and a JSON file
whose root is the number 3 (not a list) reads as the wrong-structure
file-processing error. -/
theorem read_yields_sequence_witness :
    csvHandlerRead [("a.csv", FileContent.csvFile [])] "a.csv" = Except.ok [] ∧
    jsonHandlerRead [("b.json", FileContent.jsonFile (JsonVal.int 3))] "b.json" =
      Except.error (PyExc.fileProcessingError "b.json"
        "JSON content has wrong structure: JSON content must be a list of objects.") :=
  ⟨(read_yields_sequence [("a.csv", FileContent.csvFile [])] "a.csv").1 rfl,
   (read_yields_sequence [("b.json", FileContent.jsonFile (JsonVal.int 3))] "b.json").2.2
     (JsonVal.int 3) rfl (fun xs h => nomatch h)⟩

/-- C10: `CsvHandler.write` on a non-empty record sequence whose first
record is a dict always lays the first record's keys down, in record order,
as the header row (whether or not the remaining records convert); and when
some later record holds a key missing from that header, the write ends in a
`FileProcessingError` carrying the destination path (the `ValueError` the
`csv` writer raises for the extra field, re-wrapped), instead of silently
dropping the field. -/
theorem csv_write_header_and_extra_key (fs : FS) (path : String)
    (kvs0 : List (String × PyVal)) (rest : List PyVal) :
    (∃ rows, (csvHandlerWrite fs path (PyVal.dict kvs0 :: rest)).1 =
        dictSet fs path (FileContent.csvFile ((kvs0.map Prod.fst) :: rows))) ∧
    (rest.any (hasExtraKey (kvs0.map Prod.fst)) = true →
      ∃ m, (csvHandlerWrite fs path (PyVal.dict kvs0 :: rest)).2 =
        Except.error (PyExc.fileProcessingError path
          ("An unexpected error occurred during CSV writing: " ++ m))) := by
  constructor
  · refine ⟨(writeRowsAux (kvs0.map Prod.fst) (PyVal.dict kvs0 :: rest)).1, ?_⟩
    rcases hww : writeRowsAux (kvs0.map Prod.fst) (PyVal.dict kvs0 :: rest) with ⟨rows, err⟩
    cases err <;> simp [csvHandlerWrite, hww]
  · intro h
    have hany : (PyVal.dict kvs0 :: rest).any (hasExtraKey (kvs0.map Prod.fst)) = true := by
      simp [List.any_cons, h]
    obtain ⟨m, hm⟩ := writeRowsAux_extra (kvs0.map Prod.fst) (PyVal.dict kvs0 :: rest) hany
    refine ⟨m, ?_⟩
    rcases hww : writeRowsAux (kvs0.map Prod.fst) (PyVal.dict kvs0 :: rest) with ⟨rows, err⟩
    rw [hww] at hm
    simp only at hm
    subst hm
    simp [csvHandlerWrite, hww]

/-- C10 witness: the record `{a: "2", c: "3"}` after a first record keyed
only by `a` makes the write fail with a file-processing error naming the
destination, and the header row is `a`. -/
theorem csv_write_header_and_extra_key_witness :
    (∃ rows, (csvHandlerWrite [] "t.csv"
        [PyVal.dict [("a", PyVal.str "1")],
         PyVal.dict [("a", PyVal.str "2"), ("c", PyVal.str "3")]]).1 =
      dictSet [] "t.csv" (FileContent.csvFile (["a"] :: rows))) ∧
    (∃ m, (csvHandlerWrite [] "t.csv"
        [PyVal.dict [("a", PyVal.str "1")],
         PyVal.dict [("a", PyVal.str "2"), ("c", PyVal.str "3")]]).2 =
      Except.error (PyExc.fileProcessingError "t.csv"
        ("An unexpected error occurred during CSV writing: " ++ m))) :=
  ⟨(csv_write_header_and_extra_key [] "t.csv" [("a", PyVal.str "1")]
      [PyVal.dict [("a", PyVal.str "2"), ("c", PyVal.str "3")]]).1,
   (csv_write_header_and_extra_key [] "t.csv" [("a", PyVal.str "1")]
      [PyVal.dict [("a", PyVal.str "2"), ("c", PyVal.str "3")]]).2 (by decide)⟩

end FileConverter
